import Mathlib

/-!
Shallow embedding of the guestbook submission pipeline
(`internal/handler/home.go`, function `Create`) together with the Go
standard-library string and address helpers it calls.  Go strings are
modelled as `List Char`; the external collaborators (storage repository,
profanity lexicon, URL detector, template renderer) are parameters of the
pipeline, matching the call sites in the handler.
-/

/-- A Go string, modelled as its list of characters. -/
abbrev GoStr := List Char

/-- Go `strings.Split(s, sep)` for a one-character separator `sep`
(the handler only splits on `","` and `":"`).  On the empty string it
returns `[""]`, exactly as in Go. -/
def stringsSplit (sep : Char) : GoStr → List GoStr
  | [] => [[]]
  | c :: rest =>
    match stringsSplit sep rest with
    | [] => [[]]
    | t :: ts => if c = sep then [] :: t :: ts else (c :: t) :: ts

/-- Go `strings.Join(parts, sep)`. -/
def stringsJoin (sep : GoStr) : List GoStr → GoStr
  | [] => []
  | [x] => x
  | x :: y :: ys => x ++ sep ++ stringsJoin sep (y :: ys)

/-- Go `strings.Trim(s, cutset)`: remove leading and trailing characters
belonging to `cutset` (the handler uses cutset `"[]"`). -/
def stringsTrim (cutset : List Char) (s : GoStr) : GoStr :=
  ((s.dropWhile (fun c => c ∈ cutset)).reverse.dropWhile (fun c => c ∈ cutset)).reverse

/-- Go `unicode.IsSpace`: the White_Space code points tested by
`strings.TrimSpace`. -/
def goIsSpace (c : Char) : Bool :=
  c.toNat ∈ [0x09, 0x0A, 0x0B, 0x0C, 0x0D, 0x20, 0x85, 0xA0,
    0x1680, 0x2000, 0x2001, 0x2002, 0x2003, 0x2004, 0x2005, 0x2006,
    0x2007, 0x2008, 0x2009, 0x200A, 0x2028, 0x2029, 0x202F, 0x205F, 0x3000]

/-- Go `strings.TrimSpace`. -/
def trimSpace (s : GoStr) : GoStr :=
  ((s.dropWhile goIsSpace).reverse.dropWhile goIsSpace).reverse

/-- `newlineRegex.ReplaceAllString(message, " ")` for
`newlineRegex = regexp.MustCompile` of the pattern optional carriage
return followed by a line feed: scanning left to right, each match
(a greedy CR LF pair, else a lone LF) is replaced by one space. -/
def normalizeNewlines : GoStr → GoStr
  | [] => []
  | [c] => if c = '\n' then [' '] else [c]
  | c :: d :: rest =>
    if c = '\n' then ' ' :: normalizeNewlines (d :: rest)
    else if c = '\r' ∧ d = '\n' then ' ' :: normalizeNewlines rest
    else c :: normalizeNewlines (d :: rest)

/-- Digit value of a hexadecimal character, as accepted by the Go
`netip` IPv6 field scanner. -/
def hexDigitVal (c : Char) : Option Nat :=
  if '0' ≤ c ∧ c ≤ '9' then some (c.toNat - 48)
  else if 'a' ≤ c ∧ c ≤ 'f' then some (c.toNat - 87)
  else if 'A' ≤ c ∧ c ≤ 'F' then some (c.toNat - 55)
  else none

/-- Go `netip.parseIPv4Fields`: scan dotted-decimal fields.  State: the
remaining characters, the current field's accumulated value, the number of
digits read in the current field, and the completed fields.  Rejects empty
fields, fields above 255, leading zeros, and a field count other than 4. -/
def ipv4Fields : GoStr → Nat → Nat → List Nat → Option (List Nat)
  | [], val, digLen, fields =>
    if digLen = 0 then none
    else if fields.length < 3 then none
    else some (fields ++ [val])
  | c :: rest, val, digLen, fields =>
    if c.isDigit then
      if digLen = 1 ∧ val = 0 then none
      else
        let val2 := val * 10 + (c.toNat - 48)
        if val2 > 255 then none
        else ipv4Fields rest val2 (digLen + 1) fields
    else if c = '.' then
      if digLen = 0 then none
      else if rest = [] then none
      else if fields.length = 3 then none
      else ipv4Fields rest 0 0 (fields ++ [val])
    else none

/-- Go `netip` hex-field scanner: consume a maximal run of hex digits,
returning the accumulated value, the digit count and the rest; fails when
the value exceeds 16 bits (checked after every digit, as in Go). -/
def takeHex : GoStr → Nat → Nat → Option (Nat × Nat × GoStr)
  | [], acc, n => some (acc, n, [])
  | c :: rest, acc, n =>
    match hexDigitVal c with
    | none => some (acc, n, c :: rest)
    | some d =>
      let acc2 := acc * 16 + d
      if acc2 > 65535 then none else takeHex rest acc2 (n + 1)

/-- One pass of Go `netip.parseIPv6`'s main loop.  `fuel` bounds the number
of 16-bit groups (at most 8); `bytes` are the bytes filled so far, `ell`
the byte position of a `::` ellipsis if one was seen.  Returns the filled
bytes, the ellipsis position and the unconsumed input. -/
def v6Loop : Nat → GoStr → List Nat → Option Nat → Option (List Nat × Option Nat × GoStr)
  | 0, s, bytes, ell => some (bytes, ell, s)
  | fuel + 1, s, bytes, ell =>
    if bytes.length ≥ 16 then some (bytes, ell, s)
    else
      match takeHex s 0 0 with
      | none => none
      | some (acc, off, rest) =>
        if off = 0 then none
        else if rest.head? = some '.' then
          if ell = none ∧ bytes.length ≠ 12 then none
          else if bytes.length + 4 > 16 then none
          else
            match ipv4Fields s 0 0 [] with
            | none => none
            | some f => some (bytes ++ f, ell, [])
        else
          let bytes2 := bytes ++ [acc / 256, acc % 256]
          match rest with
          | [] => some (bytes2, ell, [])
          | ':' :: [] => none
          | ':' :: ':' :: rest3 =>
            if ell.isSome then none
            else if rest3 = [] then some (bytes2, some bytes2.length, [])
            else v6Loop fuel rest3 bytes2 (some bytes2.length)
          | ':' :: rest2 => v6Loop fuel rest2 bytes2 ell
          | _ => none

/-- Finalization of Go `netip.parseIPv6`: no input may remain; fewer than
16 bytes require an ellipsis, which expands to the missing zeros; exactly
16 bytes forbid an ellipsis. -/
def v6Finish : Option (List Nat × Option Nat × GoStr) → Option (List Nat)
  | none => none
  | some (bytes, ell, leftover) =>
    if leftover ≠ [] then none
    else if bytes.length < 16 then
      match ell with
      | none => none
      | some e => some (bytes.take e ++ List.replicate (16 - bytes.length) 0 ++ bytes.drop e)
    else if ell.isSome then none
    else some bytes

/-- Go `netip.parseIPv6` (zones excluded, see `parseIP`): handle a leading
`::`, then run the group loop and finalize. -/
def parseIPv6 : GoStr → Option (List Nat)
  | ':' :: ':' :: rest =>
    if rest = [] then some (List.replicate 16 0)
    else v6Finish (v6Loop 8 rest [] (some 0))
  | s => v6Finish (v6Loop 8 s [] none)

/-- Go `netip.parseIPv4`, returned in the 16-byte form that
`net.ParseIP` produces (`As16`, an IPv4-mapped IPv6 address). -/
def parseIPv4 (s : GoStr) : Option (List Nat) :=
  (ipv4Fields s 0 0 []).map
    (fun f => [0, 0, 0, 0, 0, 0, 0, 0, 0, 0, 0xff, 0xff] ++ f)

/-- Go `netip.ParseAddr`'s dispatch: the first `.`, `:` or `%` in the
string decides the format (IPv4, IPv6, or error). -/
def parseIPgo : GoStr → GoStr → Option (List Nat)
  | [], _ => none
  | c :: rest, orig =>
    if c = '.' then parseIPv4 orig
    else if c = ':' then parseIPv6 orig
    else if c = '%' then none
    else parseIPgo rest orig

/-- Go `net.ParseIP`: parse via `netip.ParseAddr` and reject any address
carrying a zone.  A `%` anywhere makes the result `nil`: either the zone
separator is reached by the dispatch (error), or a parsed zone is rejected
by `net.ParseIP`, or the `%` is an invalid character of an IPv4 field.
The result is the address's 16-byte form. -/
def parseIP (s : GoStr) : Option (List Nat) :=
  if s.contains '%' then none else parseIPgo s s

/-- Decimal digits of `n`, as Go prints an IPv4 byte. -/
def decStr (n : Nat) : GoStr := Nat.toDigits 10 n

/-- Lowercase hexadecimal digits of `n` without leading zeros, as Go's
`net.IP.String` prints a 16-bit group. -/
def hexStr (n : Nat) : GoStr := Nat.toDigits 16 n

/-- Length of the run of zero groups starting at the head. -/
def zeroRunLen : List Nat → Nat
  | 0 :: t => 1 + zeroRunLen t
  | _ => 0

/-- Leftmost longest run of zero groups (start index and length), as in
Go `net.IP.String`'s search for the `::` abbreviation. -/
def bestZeroRun (groups : List Nat) : Nat × Nat :=
  (List.range groups.length).foldl
    (fun best i =>
      let l := zeroRunLen (groups.drop i)
      if l > best.2 then (i, l) else best)
    (0, 0)

/-- Go `net.IP.String` for a 16-byte non-IPv4-mapped address: hex groups
separated by colons, with the leftmost longest zero run of at least two
groups abbreviated to `::`. -/
def ipv6String (bytes : List Nat) : GoStr :=
  let groups := (List.range 8).map
    (fun i => bytes.getD (2 * i) 0 * 256 + bytes.getD (2 * i + 1) 0)
  let best := bestZeroRun groups
  if best.2 ≥ 2 then
    stringsJoin [':'] ((groups.take best.1).map hexStr)
      ++ ':' :: ':' :: stringsJoin [':'] ((groups.drop (best.1 + best.2)).map hexStr)
  else stringsJoin [':'] (groups.map hexStr)

/-- Go `net.IP.String`: `"<nil>"` for a nil address, dotted decimal for an
IPv4-mapped address, and the abbreviated hex form otherwise. -/
def ipString : Option (List Nat) → GoStr
  | none => "<nil>".data
  | some bytes =>
    if bytes.take 12 = [0, 0, 0, 0, 0, 0, 0, 0, 0, 0, 0xff, 0xff] then
      stringsJoin ['.'] ((bytes.drop 12).map decStr)
    else ipv6String bytes

/-- The 16-byte form of a parsed address (`net.IP` after `As16`). -/
abbrev IPBytes := List Nat

/-- Modelled from the spec: a Guest Entry as built by `guest.NewGuest`
(package `internal/guest`, outside the handler source): the message text
and the client identity; the creation timestamp is assigned by the
storage layer and is not observable here. -/
structure GuestEntry where
  text : GoStr
  addr : Option IPBytes
deriving DecidableEq, Repr

/-- The handler's possible responses, one constructor per `return` path of
`Create`. -/
inductive Outcome where
  /-- `http.StatusInternalServerError` with empty body (form parse,
  guest construction or insert failure). -/
  | internalError
  /-- `http.StatusBadRequest` with empty body: no `"message"` form key. -/
  | missingField
  /-- `http.StatusBadRequest` rendering `"Blank messages don\'t count"`. -/
  | rejectedBlank
  /-- `time.Sleep(time.Minute)` then plain return: delayed empty response. -/
  | rateLimited
  /-- `http.StatusBadRequest` rendering the profanity message with the
  identity's textual form. -/
  | rejectedProfane (rendered : GoStr)
  /-- `http.StatusBadRequest` rendering `"No links allowed"`. -/
  | rejectedLink
  /-- `http.Redirect` to `"/"` with `http.StatusFound`. -/
  | accepted
deriving DecidableEq, Repr

/-- What one call of `Create` did: its response outcome, whether
`repo.LastMessage` was called, and the Guest Entries passed to
`repo.Insert`. -/
structure Result where
  outcome : Outcome
  lookupPerformed : Bool
  inserted : List GuestEntry
deriving DecidableEq, Repr

/-- The handler's collaborators at their call sites in `Create`:
`repo.LastMessage` (`some since` models a nil error together with the
`time.Since(last.CreatedAt)` duration in nanoseconds; `none` models any
non-nil error, including "no rows"), `goaway.IsProfane`,
`linkRegex.MatchString` for `linkRegex = xurls.Relaxed()`, and the
success of `guest.NewGuest` and `repo.Insert`. -/
structure Env where
  lookup : Option IPBytes → Option Int
  isProfane : GoStr → Bool
  matchLink : GoStr → Bool
  newGuestOk : Bool
  insertOk : Bool

/-- One submission request as `Create` observes it: whether
`r.ParseForm` fails, the `r.Form["message"]` values (with presence),
the `X-Forwarded-For` header value (`""` when absent) and
`r.RemoteAddr`. -/
structure Request where
  parseFormError : Bool
  messageField : Option (List GoStr)
  xff : GoStr
  remoteAddr : GoStr

/-- `time.Minute` in nanoseconds. -/
def minuteNs : Int := 60000000000

/-- Lines 96–100 of `Create`: split the forwarded header on commas and
take the last entry (Go `strings.Split` never returns an empty slice, so
the guard always passes). -/
def xffCandidate (addr : GoStr) : GoStr :=
  let xffSplits := stringsSplit ',' addr
  if xffSplits.length > 0 then xffSplits.getLastD [] else []

/-- Lines 102–103 of `Create`: drop the final colon-delimited segment of
the remote address, rejoin with colons, and trim square brackets. -/
def remoteIPStr (remote : GoStr) : GoStr :=
  let splits := stringsSplit ':' remote
  stringsTrim ['[', ']'] (stringsJoin [':'] splits.dropLast)

/-- Lines 94–109 of `Create`: the resolved client identity — the parsed
forwarded candidate when that candidate is non-empty, otherwise the
parsed remote-derived string. -/
def resolveIdentity (xff remote : GoStr) : Option IPBytes :=
  let xffStr := xffCandidate xff
  let ip := parseIP (remoteIPStr remote)
  if xffStr ≠ [] then parseIP xffStr else ip

/-- The rendered error string of the profanity rejection:
`fmt.Sprintf` of the tracking notice and `ip.String()`. -/
def profanityMessage (ip : Option IPBytes) : GoStr :=
  "Please don\'t use profanity. Your IP has been tracked ".data ++ ipString ip

/-- The rendered error string of the blank rejection. -/
def blankMessage : GoStr := "Blank messages don\'t count".data

/-- The rendered error string of the link rejection. -/
def linkMessage : GoStr := "No links allowed".data

/-- Lines 120–157 of `Create`: normalize newlines, then the profanity
gate, the link gate, guest construction and insert. -/
def moderateAndPersist (env : Env) (message0 : GoStr) (ip : Option IPBytes) :
    Outcome × List GuestEntry :=
  let message := normalizeNewlines message0
  if env.isProfane message then (.rejectedProfane (profanityMessage ip), [])
  else if env.matchLink message then (.rejectedLink, [])
  else if !env.newGuestOk then (.internalError, [])
  else if !env.insertOk then (.internalError, [])
  else (.accepted, [⟨message, ip⟩])

/-- The `Create` handler (`internal/handler/home.go`, lines 70–158):
form parsing, the `"message"` key check, the blank check on the joined
values, identity resolution, the rate-limit gate on `repo.LastMessage`,
then moderation and persistence. -/
def create (env : Env) (req : Request) : Result :=
  if req.parseFormError then ⟨.internalError, false, []⟩
  else
    match req.messageField with
    | none => ⟨.missingField, false, []⟩
    | some msg =>
      let message := stringsJoin [' '] msg
      if trimSpace message = [] then ⟨.rejectedBlank, false, []⟩
      else
        let ip := resolveIdentity req.xff req.remoteAddr
        match env.lookup ip with
        | some since =>
          if since < minuteNs then ⟨.rateLimited, true, []⟩
          else
            let m := moderateAndPersist env message ip
            ⟨m.1, true, m.2⟩
        | none =>
          let m := moderateAndPersist env message ip
          ⟨m.1, true, m.2⟩

/-- The HTTP status each outcome writes (`time.Sleep` then plain return
leaves net/http's implicit 200). -/
def statusOf : Outcome → Nat
  | .internalError => 500
  | .missingField => 400
  | .rejectedBlank => 400
  | .rateLimited => 200
  | .rejectedProfane _ => 400
  | .rejectedLink => 400
  | .accepted => 302

/-- The error string rendered into the response body via the error
template (empty where no template is executed). -/
def bodyOf : Outcome → GoStr
  | .rejectedBlank => blankMessage
  | .rejectedProfane rendered => rendered
  | .rejectedLink => linkMessage
  | _ => []

/-- Seconds the handler sleeps before answering. -/
def delayOf : Outcome → Nat
  | .rateLimited => 60
  | _ => 0

example : normalizeNewlines "a\r\nb\nc\rd".data = "a b c\rd".data := by decide
example : parseIP "1.2.3.4".data =
    some [0, 0, 0, 0, 0, 0, 0, 0, 0, 0, 0xff, 0xff, 1, 2, 3, 4] := by decide
example : parseIP " 5.6.7.8".data = none := by decide
example : parseIP "01.2.3.4".data = none := by decide
example : parseIP "".data = none := by decide
example : parseIP "notanip".data = none := by decide
example : parseIP "::1".data =
    some [0, 0, 0, 0, 0, 0, 0, 0, 0, 0, 0, 0, 0, 0, 0, 1] := by decide
example : parseIP "fe80::1:2".data =
    some [0xfe, 0x80, 0, 0, 0, 0, 0, 0, 0, 0, 0, 0, 0, 1, 0, 2] := by decide
example : parseIP "::ffff:1.2.3.4".data = parseIP "1.2.3.4".data := by decide
example : parseIP "1:2:3:4:5:6:7:8:9".data = none := by decide
example : parseIP "fe80::1%eth0".data = none := by decide
example : ipString none = "<nil>".data := by decide
example : ipString (parseIP "1.2.3.4".data) = "1.2.3.4".data := by decide
example : ipString (parseIP "fe80::1:0:2".data) = "fe80::1:0:2".data := by decide
example : ipString (parseIP "1:0:0:1:0:0:0:1".data) = "1:0:0:1::1".data := by decide
example : stringsSplit ',' "1.2.3.4, 5.6.7.8".data = ["1.2.3.4".data, " 5.6.7.8".data] := by decide
example : stringsSplit ':' "1.2.3.4:80".data = ["1.2.3.4".data, "80".data] := by decide
example : trimSpace "  \t hi \n".data = "hi".data := by decide

/-- Go `strings.Contains`, used to build concrete instances of the
external detector collaborators. -/
def goContains : GoStr → GoStr → Bool
  | [], substr => substr.isEmpty
  | c :: t, substr => substr.isPrefixOf (c :: t) || goContains t substr

/-- A concrete collaborator instance: every lookup errs (no prior
submission anywhere), nothing is profane, nothing matches a link,
guest construction and insert succeed. -/
def envAllow : Env :=
  ⟨fun _ => none, fun _ => false, fun _ => false, true, true⟩

/-- A concrete collaborator instance whose lookup reports, for every
identity, a last submission 30 seconds (30e9 nanoseconds) old. -/
def envRecent : Env :=
  ⟨fun _ => some 30000000000, fun _ => false, fun _ => false, true, true⟩

example : resolveIdentity "1.2.3.4, 5.6.7.8".data "9.9.9.9:80".data = none := by decide
example : resolveIdentity [] "[::1]:54321".data =
    some [0, 0, 0, 0, 0, 0, 0, 0, 0, 0, 0, 0, 0, 0, 0, 1] := by decide
example : resolveIdentity [] "1.2.3.4:80".data =
    some [0, 0, 0, 0, 0, 0, 0, 0, 0, 0, 0xff, 0xff, 1, 2, 3, 4] := by decide
example : (create envAllow ⟨false, some ["Hello world".data], [], "1.2.3.4:80".data⟩) =
    ⟨.accepted, true,
      [⟨"Hello world".data, some [0, 0, 0, 0, 0, 0, 0, 0, 0, 0, 0xff, 0xff, 1, 2, 3, 4]⟩]⟩ := by
  decide
example : (create envRecent ⟨false, some ["Hello world".data], [], "1.2.3.4:80".data⟩) =
    ⟨.rateLimited, true, []⟩ := by decide

/-- The normalized text never contains a line feed. -/
lemma nn_no_newline (s : GoStr) : '\n' ∉ normalizeNewlines s := by
  induction s using normalizeNewlines.induct with
  | case1 => simp [normalizeNewlines]
  | case2 => simp [normalizeNewlines]
  | case3 c h => simp [normalizeNewlines, h, Ne.symm h]
  | case4 d rest ih => simpa [normalizeNewlines] using ih
  | case5 c d rest h1 h2 ih =>
    simpa [normalizeNewlines, h1, h2] using ih
  | case6 c d rest h1 h2 ih =>
    simp only [normalizeNewlines, if_neg h1, if_neg h2, List.mem_cons, not_or]
    exact ⟨fun he => h1 he.symm, ih⟩

/-- On a string without line feeds, normalization is the identity. -/
lemma nn_id_of_no_newline (s : GoStr) (h : '\n' ∉ s) : normalizeNewlines s = s := by
  induction s using normalizeNewlines.induct with
  | case1 => simp [normalizeNewlines]
  | case2 => simp at h
  | case3 c hc => simp [normalizeNewlines, hc]
  | case4 d rest ih => simp at h
  | case5 c d rest h1 h2 ih =>
    exact absurd (by simp [h2.2]) h
  | case6 c d rest h1 h2 ih =>
    simp only [List.mem_cons, not_or] at h
    simp [normalizeNewlines, h1, h2, ih (by simp [not_or, h.2.1, h.2.2])]

/-- C9: newline normalization is idempotent: a second application of the
replace-all of the newline pattern by a space changes nothing. -/
theorem c9_normalize_idempotent (s : GoStr) :
    normalizeNewlines (normalizeNewlines s) = normalizeNewlines s :=
  nn_id_of_no_newline _ (nn_no_newline s)

/-- C10: the normalized text contains no line feed, while a bare carriage
return not immediately followed by a line feed is preserved verbatim: the
replaced pattern is exactly an optional carriage return followed by a
line feed. -/
theorem c10_no_linefeed_bare_cr_kept (s : GoStr) :
    '\n' ∉ normalizeNewlines s ∧
    (∀ rest : GoStr, rest.head? ≠ some '\n' →
      normalizeNewlines ('\r' :: rest) = '\r' :: normalizeNewlines rest) := by
  refine ⟨nn_no_newline s, ?_⟩
  intro rest hr
  cases rest with
  | nil => simp [normalizeNewlines]
  | cons c t =>
    have hc : ¬('\r' = '\r' ∧ c = '\n') := by
      simp only [List.head?, ne_eq, Option.some.injEq] at hr
      intro hand
      exact hr hand.2
    simp only [normalizeNewlines, hc, if_false]
    have hcn : ¬c = '\n' := fun h => hc ⟨rfl, h⟩
    simp [hcn]

/-- Witness for C10 at the concrete strings of the scenario. -/
theorem c10_no_linefeed_bare_cr_kept_witness :
    '\n' ∉ normalizeNewlines "a\r\nb".data ∧
    normalizeNewlines ('\r' :: "b".data) = '\r' :: normalizeNewlines "b".data :=
  ⟨(c10_no_linefeed_bare_cr_kept "a\r\nb".data).1,
   (c10_no_linefeed_bare_cr_kept "a\r\nb".data).2 "b".data (by decide)⟩

/-- The moderation stage never produces the rate-limit outcome. -/
lemma mp_ne_rateLimited (env : Env) (m : GoStr) (ip : Option IPBytes) :
    (moderateAndPersist env m ip).1 ≠ Outcome.rateLimited := by
  simp only [moderateAndPersist]
  split_ifs <;> simp

/-- The moderation stage never produces the blank rejection. -/
lemma mp_ne_blank (env : Env) (m : GoStr) (ip : Option IPBytes) :
    (moderateAndPersist env m ip).1 ≠ Outcome.rejectedBlank := by
  simp only [moderateAndPersist]
  split_ifs <;> simp

/-- The moderation stage inserts exactly when it accepts. -/
lemma mp_inserted_iff (env : Env) (m : GoStr) (ip : Option IPBytes) :
    (moderateAndPersist env m ip).2 ≠ [] ↔
      (moderateAndPersist env m ip).1 = Outcome.accepted := by
  simp only [moderateAndPersist]
  split_ifs <;> simp

/-- The moderation stage rejects as profane exactly when the profanity
detector flags the normalized text, and then renders the identity. -/
lemma mp_profane_iff (env : Env) (m : GoStr) (ip : Option IPBytes) :
    (∃ r, (moderateAndPersist env m ip).1 = Outcome.rejectedProfane r) ↔
      env.isProfane (normalizeNewlines m) = true := by
  simp only [moderateAndPersist]
  split_ifs <;> simp_all

/-- Any rendered profanity rejection carries the tracking message with
the resolved identity's textual form. -/
lemma mp_profane_inv (env : Env) (m : GoStr) (ip : Option IPBytes) (r : GoStr) :
    (moderateAndPersist env m ip).1 = Outcome.rejectedProfane r →
      r = profanityMessage ip := by
  simp only [moderateAndPersist]
  split_ifs <;> intro h <;> first
    | (cases h; rfl)
    | cases h

/-- The moderation stage rejects as a link exactly when the profanity
detector does not flag the normalized text but the URL detector does. -/
lemma mp_link_iff (env : Env) (m : GoStr) (ip : Option IPBytes) :
    (moderateAndPersist env m ip).1 = Outcome.rejectedLink ↔
      (env.isProfane (normalizeNewlines m) = false ∧
        env.matchLink (normalizeNewlines m) = true) := by
  simp only [moderateAndPersist]
  split_ifs <;> simp_all

/-- Everything the moderation stage inserts carries the normalized text. -/
lemma mp_text (env : Env) (m : GoStr) (ip : Option IPBytes) :
    ∀ g ∈ (moderateAndPersist env m ip).2, g.text = normalizeNewlines m := by
  simp only [moderateAndPersist]
  split_ifs <;> simp

/-- `create` on a well-formed, non-blank, non-recently-seen submission is
the moderation stage applied to the joined message and the resolved
identity, with the lookup performed. -/
lemma create_eq_moderate (env : Env) (req : Request) (msgs : List GoStr)
    (h1 : req.parseFormError = false)
    (h2 : req.messageField = some msgs)
    (h3 : trimSpace (stringsJoin [' '] msgs) ≠ [])
    (h4 : ∀ since : Int,
      env.lookup (resolveIdentity req.xff req.remoteAddr) = some since →
        minuteNs ≤ since) :
    create env req =
      ⟨(moderateAndPersist env (stringsJoin [' '] msgs)
          (resolveIdentity req.xff req.remoteAddr)).1, true,
        (moderateAndPersist env (stringsJoin [' '] msgs)
          (resolveIdentity req.xff req.remoteAddr)).2⟩ := by
  cases hl : env.lookup (resolveIdentity req.xff req.remoteAddr) with
  | none => simp [create, h1, h2, h3, hl]
  | some s =>
    have hns : ¬s < minuteNs := not_lt.mpr (h4 s hl)
    simp [create, h1, h2, h3, hl, hns]

/-- `create` on a well-formed, non-blank submission whose identity was
seen less than a minute ago is the rate-limit outcome. -/
lemma create_eq_rateLimited (env : Env) (req : Request) (msgs : List GoStr)
    (since : Int)
    (h1 : req.parseFormError = false)
    (h2 : req.messageField = some msgs)
    (h3 : trimSpace (stringsJoin [' '] msgs) ≠ [])
    (hl : env.lookup (resolveIdentity req.xff req.remoteAddr) = some since)
    (hr : since < minuteNs) :
    create env req = ⟨Outcome.rateLimited, true, []⟩ := by
  simp [create, h1, h2, h3, hl, hr]

/-- The link rejection when the profanity detector is quiet and the URL
detector matches the normalized text. -/
lemma mp_link_eq (env : Env) (m : GoStr) (ip : Option IPBytes)
    (h5 : env.isProfane (normalizeNewlines m) = false)
    (h6 : env.matchLink (normalizeNewlines m) = true) :
    moderateAndPersist env m ip = (Outcome.rejectedLink, []) := by
  simp [moderateAndPersist, h5, h6]

/-- `Create` hands an entry to `Insert` exactly when it accepts. -/
lemma create_inserted_iff (env : Env) (req : Request) :
    (create env req).inserted ≠ [] ↔ (create env req).outcome = Outcome.accepted := by
  cases h1 : req.parseFormError with
  | true => simp [create, h1]
  | false =>
    cases h2 : req.messageField with
    | none => simp [create, h1, h2]
    | some msgs =>
      by_cases h3 : trimSpace (stringsJoin [' '] msgs) = []
      · simp [create, h1, h2, h3]
      · cases hl : env.lookup (resolveIdentity req.xff req.remoteAddr) with
        | none =>
          have h4 : ∀ since : Int,
              env.lookup (resolveIdentity req.xff req.remoteAddr) = some since →
                minuteNs ≤ since := by
            intro s hs
            rw [hl] at hs
            cases hs
          rw [create_eq_moderate env req msgs h1 h2 h3 h4]
          exact mp_inserted_iff env _ _
        | some s =>
          by_cases hr : s < minuteNs
          · rw [create_eq_rateLimited env req msgs s h1 h2 h3 hl hr]
            simp
          · have h4 : ∀ since : Int,
                env.lookup (resolveIdentity req.xff req.remoteAddr) = some since →
                  minuteNs ≤ since := by
              intro s2 hs
              rw [hl] at hs
              injection hs with he
              rw [← he]
              exact not_lt.mp hr
            rw [create_eq_moderate env req msgs h1 h2 h3 h4]
            exact mp_inserted_iff env _ _

/-- C1 is false as stated: with a last-submission record 30 seconds old
for every identity, a whitespace-only message is rejected as blank; the
outcome is not rate-limited. -/
theorem c1_counterexample :
    (create envRecent ⟨false, some ["   ".data], [], "1.2.3.4:80".data⟩).outcome
        = Outcome.rejectedBlank ∧
    (create envRecent ⟨false, some ["   ".data], [], "1.2.3.4:80".data⟩).outcome
        ≠ Outcome.rateLimited := by decide

/-- C1 (amended): for every submission with a present and non-blank
message whose resolved client identity has a last-submission record under
60 seconds old, the outcome is rate-limited — one-minute delay, empty
response, nothing persisted — whatever the non-blank message content. -/
theorem c1_recent_rate_limited (env : Env) (req : Request) (msgs : List GoStr)
    (since : Int)
    (h1 : req.parseFormError = false)
    (h2 : req.messageField = some msgs)
    (h3 : trimSpace (stringsJoin [' '] msgs) ≠ [])
    (h4 : env.lookup (resolveIdentity req.xff req.remoteAddr) = some since)
    (h5 : since < minuteNs) :
    create env req = ⟨Outcome.rateLimited, true, []⟩ ∧
    bodyOf Outcome.rateLimited = [] ∧ delayOf Outcome.rateLimited = 60 :=
  ⟨create_eq_rateLimited env req msgs since h1 h2 h3 h4 h5, rfl, rfl⟩

/-- Witness for C1 (amended) at a concrete submission. -/
theorem c1_recent_rate_limited_witness :
    create envRecent ⟨false, some ["hello".data], [], "1.2.3.4:80".data⟩ =
      ⟨Outcome.rateLimited, true, []⟩ ∧
    bodyOf Outcome.rateLimited = [] ∧ delayOf Outcome.rateLimited = 60 :=
  c1_recent_rate_limited envRecent ⟨false, some ["hello".data], [], "1.2.3.4:80".data⟩
    ["hello".data] 30000000000 rfl rfl (by decide) rfl (by decide)

/-- C2: at the forwarded header `"1.2.3.4, 5.6.7.8"` the code keeps the
leading space of the last comma-separated entry, `net.ParseIP` fails on
it and the resolved identity is nil — although the trimmed entry parses
to 5.6.7.8 exactly as the spec expects. -/
theorem c2_forwarded_header_space_bug :
    xffCandidate "1.2.3.4, 5.6.7.8".data = " 5.6.7.8".data ∧
    resolveIdentity "1.2.3.4, 5.6.7.8".data "9.9.9.9:80".data = none ∧
    parseIP (trimSpace (xffCandidate "1.2.3.4, 5.6.7.8".data)) =
      some [0, 0, 0, 0, 0, 0, 0, 0, 0, 0, 0xff, 0xff, 5, 6, 7, 8] := by decide

/-- C3: a Guest Entry reaches `Insert` exactly on acceptance (every
rejection is terminal with no persistence), and the scenario form
`message=Hello world` with no prior submission and quiet detectors is
accepted with a redirect and exactly one entry with that text. -/
theorem c3_insert_only_on_acceptance (env : Env) (req : Request)
    (h1 : req.parseFormError = false)
    (h2 : req.messageField = some ["Hello world".data])
    (h3 : env.lookup (resolveIdentity req.xff req.remoteAddr) = none)
    (h4 : env.isProfane "Hello world".data = false)
    (h5 : env.matchLink "Hello world".data = false)
    (h6 : env.newGuestOk = true)
    (h7 : env.insertOk = true) :
    create env req = ⟨Outcome.accepted, true,
        [⟨"Hello world".data, resolveIdentity req.xff req.remoteAddr⟩]⟩ ∧
    statusOf Outcome.accepted = 302 ∧
    (∀ env' req', (create env' req').inserted ≠ [] ↔
        (create env' req').outcome = Outcome.accepted) := by
  refine ⟨?_, rfl, fun env' req' => create_inserted_iff env' req'⟩
  have h3' : ∀ since : Int,
      env.lookup (resolveIdentity req.xff req.remoteAddr) = some since →
        minuteNs ≤ since := by
    intro s hs
    rw [h3] at hs
    cases hs
  rw [create_eq_moderate env req ["Hello world".data] h1 h2 (by decide) h3']
  have hn : normalizeNewlines ("Hello world".data) = "Hello world".data := by decide
  have hj : stringsJoin [' '] ["Hello world".data] = "Hello world".data := rfl
  simp [moderateAndPersist, hj, hn, h4, h5, h6, h7]

/-- Witness for C3 at a concrete request against the all-allowing
collaborators. -/
theorem c3_insert_only_on_acceptance_witness :
    create envAllow ⟨false, some ["Hello world".data], [], "1.2.3.4:80".data⟩ =
      ⟨Outcome.accepted, true,
        [⟨"Hello world".data, resolveIdentity [] "1.2.3.4:80".data⟩]⟩ ∧
    statusOf Outcome.accepted = 302 ∧
    (∀ env' req', (create env' req').inserted ≠ [] ↔
        (create env' req').outcome = Outcome.accepted) :=
  c3_insert_only_on_acceptance envAllow
    ⟨false, some ["Hello world".data], [], "1.2.3.4:80".data⟩
    rfl rfl rfl rfl rfl rfl rfl

/-- C4: a present but blank (empty or whitespace-only after trimming)
message is always rejected as blank — client-error status, the blank
error string, no lookup, no persistence — for every identity and every
rate-limit state. -/
theorem c4_blank_always_rejected (env : Env) (req : Request) (msgs : List GoStr)
    (h1 : req.parseFormError = false)
    (h2 : req.messageField = some msgs)
    (h3 : trimSpace (stringsJoin [' '] msgs) = []) :
    create env req = ⟨Outcome.rejectedBlank, false, []⟩ ∧
    statusOf Outcome.rejectedBlank = 400 ∧
    bodyOf Outcome.rejectedBlank = "Blank messages don\'t count".data := by
  refine ⟨?_, rfl, rfl⟩
  simp [create, h1, h2, h3]

/-- Witness for C4: a whitespace-only message under a recently-seen
identity is still rejected as blank. -/
theorem c4_blank_always_rejected_witness :
    create envRecent ⟨false, some ["   ".data], [], "1.2.3.4:80".data⟩ =
      ⟨Outcome.rejectedBlank, false, []⟩ ∧
    statusOf Outcome.rejectedBlank = 400 ∧
    bodyOf Outcome.rejectedBlank = "Blank messages don\'t count".data :=
  c4_blank_always_rejected envRecent ⟨false, some ["   ".data], [], "1.2.3.4:80".data⟩
    ["   ".data] rfl rfl (by decide)

/-- Collaborator instance reflecting the external detectors on the texts
used below: go-away's default English lexicon flags any text containing
"shit", and xurls.Relaxed matches the bare domain "evil.com" anywhere in
a text; every lookup errs (no prior submission), storage succeeds. -/
def envProfane : Env :=
  ⟨fun _ => none,
   fun s => goContains s "shit".data,
   fun s => goContains s "evil.com".data,
   true, true⟩

/-- C5 is false as stated: a non-blank, non-rate-limited text that the
URL detector matches is rejected as profane, not as a link, when the
profanity detector also flags it — the profanity gate runs first. -/
theorem c5_counterexample :
    envProfane.matchLink
        (normalizeNewlines (stringsJoin [' '] ["shit evil.com".data])) = true ∧
    trimSpace (stringsJoin [' '] ["shit evil.com".data]) ≠ [] ∧
    (create envProfane
        ⟨false, some ["shit evil.com".data], [], "1.2.3.4:80".data⟩).outcome
      ≠ Outcome.rejectedLink ∧
    (create envProfane
        ⟨false, some ["shit evil.com".data], [], "1.2.3.4:80".data⟩).outcome
      = Outcome.rejectedProfane (profanityMessage
          (some [0, 0, 0, 0, 0, 0, 0, 0, 0, 0, 0xff, 0xff, 1, 2, 3, 4])) := by
  decide

/-- C5 (amended): a non-blank, non-rate-limited submission whose
normalized text the URL detector matches and the profanity detector does
not flag is rejected as a link, with nothing persisted. -/
theorem c5_link_rejected (env : Env) (req : Request) (msgs : List GoStr)
    (h1 : req.parseFormError = false)
    (h2 : req.messageField = some msgs)
    (h3 : trimSpace (stringsJoin [' '] msgs) ≠ [])
    (h4 : ∀ since : Int,
      env.lookup (resolveIdentity req.xff req.remoteAddr) = some since →
        minuteNs ≤ since)
    (h5 : env.isProfane (normalizeNewlines (stringsJoin [' '] msgs)) = false)
    (h6 : env.matchLink (normalizeNewlines (stringsJoin [' '] msgs)) = true) :
    (create env req).outcome = Outcome.rejectedLink ∧
    (create env req).inserted = [] ∧
    bodyOf Outcome.rejectedLink = "No links allowed".data := by
  rw [create_eq_moderate env req msgs h1 h2 h3 h4,
    mp_link_eq env (stringsJoin [' '] msgs) (resolveIdentity req.xff req.remoteAddr) h5 h6]
  exact ⟨rfl, rfl, rfl⟩

/-- Witness for C5 (amended): the scenario `message=visit evil.com`. -/
theorem c5_link_rejected_witness :
    (create envProfane
        ⟨false, some ["visit evil.com".data], [], "1.2.3.4:80".data⟩).outcome
      = Outcome.rejectedLink ∧
    (create envProfane
        ⟨false, some ["visit evil.com".data], [], "1.2.3.4:80".data⟩).inserted = [] ∧
    bodyOf Outcome.rejectedLink = "No links allowed".data :=
  c5_link_rejected envProfane
    ⟨false, some ["visit evil.com".data], [], "1.2.3.4:80".data⟩
    ["visit evil.com".data] rfl rfl (by decide)
    (fun s hs => Option.noConfusion hs) (by decide) (by decide)

/-- C6 is false as stated: with an unparseable forwarded entry the
resolved identity is absent, yet the prior-message lookup is still
performed (`repo.LastMessage` is called with the nil identity). -/
theorem c6_counterexample :
    resolveIdentity "notanip".data "9.9.9.9:80".data = none ∧
    (create envAllow
        ⟨false, some ["hi".data], "notanip".data, "9.9.9.9:80".data⟩).lookupPerformed
      = true := by decide

/-- C6 (amended): when identity parsing fails on a well-formed non-blank
submission, the pipeline still performs the prior-message lookup (with
the absent identity) and proceeds normally, and any rendered
profanity-rejection message shows the identity as the nil placeholder. -/
theorem c6_absent_identity (env : Env) (req : Request) (msgs : List GoStr)
    (h1 : req.parseFormError = false)
    (h2 : req.messageField = some msgs)
    (h3 : trimSpace (stringsJoin [' '] msgs) ≠ [])
    (hip : resolveIdentity req.xff req.remoteAddr = none) :
    (create env req).lookupPerformed = true ∧
    (∀ r, (create env req).outcome = Outcome.rejectedProfane r →
      r = profanityMessage none) ∧
    profanityMessage none =
      "Please don\'t use profanity. Your IP has been tracked <nil>".data := by
  cases hl : env.lookup (resolveIdentity req.xff req.remoteAddr) with
  | none =>
    have h4 : ∀ since : Int,
        env.lookup (resolveIdentity req.xff req.remoteAddr) = some since →
          minuteNs ≤ since := by
      intro s hs
      rw [hl] at hs
      cases hs
    rw [create_eq_moderate env req msgs h1 h2 h3 h4]
    refine ⟨rfl, ?_, by decide⟩
    intro r hr
    have hmsg := mp_profane_inv env (stringsJoin [' '] msgs)
      (resolveIdentity req.xff req.remoteAddr) r hr
    rw [hip] at hmsg
    exact hmsg
  | some s =>
    by_cases hr : s < minuteNs
    · rw [create_eq_rateLimited env req msgs s h1 h2 h3 hl hr]
      refine ⟨rfl, ?_, by decide⟩
      intro r h
      cases h
    · have h4 : ∀ since : Int,
          env.lookup (resolveIdentity req.xff req.remoteAddr) = some since →
            minuteNs ≤ since := by
        intro s2 hs
        rw [hl] at hs
        injection hs with he
        rw [← he]
        exact not_lt.mp hr
      rw [create_eq_moderate env req msgs h1 h2 h3 h4]
      refine ⟨rfl, ?_, by decide⟩
      intro r hrp
      have hmsg := mp_profane_inv env (stringsJoin [' '] msgs)
        (resolveIdentity req.xff req.remoteAddr) r hrp
      rw [hip] at hmsg
      exact hmsg

/-- Witness for C6 (amended) at the unparseable forwarded entry. -/
theorem c6_absent_identity_witness :
    (create envAllow
        ⟨false, some ["hi".data], "notanip".data, "9.9.9.9:80".data⟩).lookupPerformed
      = true ∧
    (∀ r, (create envAllow
        ⟨false, some ["hi".data], "notanip".data, "9.9.9.9:80".data⟩).outcome
          = Outcome.rejectedProfane r → r = profanityMessage none) ∧
    profanityMessage none =
      "Please don\'t use profanity. Your IP has been tracked <nil>".data :=
  c6_absent_identity envAllow
    ⟨false, some ["hi".data], "notanip".data, "9.9.9.9:80".data⟩
    ["hi".data] rfl rfl (by decide) (by decide)

/-- C7: with no prior submission, a not-found or otherwise failing lookup
(modelled alike, as the code only tests `err == nil`), or a last
submission at least 60 seconds old, the outcome is never rate-limited;
and a failing lookup behaves exactly as an always-empty history. -/
theorem c7_stale_or_error_never_blocks (env : Env) (req : Request)
    (h4 : ∀ since : Int,
      env.lookup (resolveIdentity req.xff req.remoteAddr) = some since →
        minuteNs ≤ since) :
    (create env req).outcome ≠ Outcome.rateLimited ∧
    (env.lookup (resolveIdentity req.xff req.remoteAddr) = none →
      create env req =
        create ⟨fun _ => none, env.isProfane, env.matchLink,
          env.newGuestOk, env.insertOk⟩ req) := by
  constructor
  · cases h1 : req.parseFormError with
    | true => simp [create, h1]
    | false =>
      cases h2 : req.messageField with
      | none => simp [create, h1, h2]
      | some msgs =>
        by_cases h3 : trimSpace (stringsJoin [' '] msgs) = []
        · simp [create, h1, h2, h3]
        · rw [create_eq_moderate env req msgs h1 h2 h3 h4]
          exact mp_ne_rateLimited env _ _
  · intro hnone
    cases h1 : req.parseFormError with
    | true => simp [create, h1]
    | false =>
      cases h2 : req.messageField with
      | none => simp [create, h1, h2]
      | some msgs =>
        by_cases h3 : trimSpace (stringsJoin [' '] msgs) = []
        · simp [create, h1, h2, h3]
        · rw [create_eq_moderate env req msgs h1 h2 h3 h4,
            create_eq_moderate _ req msgs h1 h2 h3 (fun _ hs => Option.noConfusion hs)]
          rfl

/-- Witness for C7 at a concrete submission with an erring lookup. -/
theorem c7_stale_or_error_never_blocks_witness :
    (create envAllow ⟨false, some ["hi".data], [], "1.2.3.4:80".data⟩).outcome
      ≠ Outcome.rateLimited ∧
    (envAllow.lookup (resolveIdentity [] "1.2.3.4:80".data) = none →
      create envAllow ⟨false, some ["hi".data], [], "1.2.3.4:80".data⟩ =
        create ⟨fun _ => none, envAllow.isProfane, envAllow.matchLink,
          envAllow.newGuestOk, envAllow.insertOk⟩
          ⟨false, some ["hi".data], [], "1.2.3.4:80".data⟩) :=
  c7_stale_or_error_never_blocks envAllow
    ⟨false, some ["hi".data], [], "1.2.3.4:80".data⟩
    (fun _ hs => Option.noConfusion hs)

/-- C8: on a well-formed submission the blank check reads the joined,
un-normalized text; once non-blank and not rate-limited, the profanity
and link detectors and the stored entry all read the newline-collapsed
text — normalization sits after the rate-limit gate and before
moderation. -/
theorem c8_normalization_order (env : Env) (req : Request) (msgs : List GoStr)
    (h1 : req.parseFormError = false)
    (h2 : req.messageField = some msgs) :
    ((create env req).outcome = Outcome.rejectedBlank ↔
      trimSpace (stringsJoin [' '] msgs) = []) ∧
    (trimSpace (stringsJoin [' '] msgs) ≠ [] →
      (∀ since : Int,
        env.lookup (resolveIdentity req.xff req.remoteAddr) = some since →
          minuteNs ≤ since) →
      ((∃ r, (create env req).outcome = Outcome.rejectedProfane r) ↔
          env.isProfane (normalizeNewlines (stringsJoin [' '] msgs)) = true) ∧
      ((create env req).outcome = Outcome.rejectedLink ↔
          (env.isProfane (normalizeNewlines (stringsJoin [' '] msgs)) = false ∧
            env.matchLink (normalizeNewlines (stringsJoin [' '] msgs)) = true)) ∧
      (∀ g ∈ (create env req).inserted,
        g.text = normalizeNewlines (stringsJoin [' '] msgs))) := by
  constructor
  · constructor
    · intro h
      by_contra h3
      cases hl : env.lookup (resolveIdentity req.xff req.remoteAddr) with
      | none =>
        have h4 : ∀ since : Int,
            env.lookup (resolveIdentity req.xff req.remoteAddr) = some since →
              minuteNs ≤ since := by
          intro s hs
          rw [hl] at hs
          cases hs
        rw [create_eq_moderate env req msgs h1 h2 h3 h4] at h
        exact mp_ne_blank env _ _ h
      | some s =>
        by_cases hr : s < minuteNs
        · rw [create_eq_rateLimited env req msgs s h1 h2 h3 hl hr] at h
          cases h
        · have h4 : ∀ since : Int,
              env.lookup (resolveIdentity req.xff req.remoteAddr) = some since →
                minuteNs ≤ since := by
            intro s2 hs
            rw [hl] at hs
            injection hs with he
            rw [← he]
            exact not_lt.mp hr
          rw [create_eq_moderate env req msgs h1 h2 h3 h4] at h
          exact mp_ne_blank env _ _ h
    · intro h3
      simp [create, h1, h2, h3]
  · intro h3 h4
    rw [create_eq_moderate env req msgs h1 h2 h3 h4]
    exact ⟨mp_profane_iff env _ _, mp_link_iff env _ _, mp_text env _ _⟩

/-- Witness for C8 at a concrete newline-carrying submission. -/
theorem c8_normalization_order_witness :
    ((create envAllow ⟨false, some ["a\nb".data], [], "1.2.3.4:80".data⟩).outcome
        = Outcome.rejectedBlank ↔
      trimSpace (stringsJoin [' '] ["a\nb".data]) = []) ∧
    (trimSpace (stringsJoin [' '] ["a\nb".data]) ≠ [] →
      (∀ since : Int,
        envAllow.lookup (resolveIdentity [] "1.2.3.4:80".data) = some since →
          minuteNs ≤ since) →
      ((∃ r, (create envAllow
            ⟨false, some ["a\nb".data], [], "1.2.3.4:80".data⟩).outcome
          = Outcome.rejectedProfane r) ↔
        envAllow.isProfane (normalizeNewlines (stringsJoin [' '] ["a\nb".data])) = true) ∧
      ((create envAllow ⟨false, some ["a\nb".data], [], "1.2.3.4:80".data⟩).outcome
          = Outcome.rejectedLink ↔
        (envAllow.isProfane (normalizeNewlines (stringsJoin [' '] ["a\nb".data])) = false ∧
          envAllow.matchLink (normalizeNewlines (stringsJoin [' '] ["a\nb".data])) = true)) ∧
      (∀ g ∈ (create envAllow
          ⟨false, some ["a\nb".data], [], "1.2.3.4:80".data⟩).inserted,
        g.text = normalizeNewlines (stringsJoin [' '] ["a\nb".data]))) :=
  c8_normalization_order envAllow
    ⟨false, some ["a\nb".data], [], "1.2.3.4:80".data⟩ ["a\nb".data] rfl rfl
